import Mathlib

/-!
Verification of the ledger / intent-dispatch core of the plexi-virtual-assistant
backend, as a shallow embedding in Lean 4.

Sources embedded (python):
  backend/services/db_service.py      (period-window resolution, calorie-entry update)
  backend/routers/calories.py         (direct calorie-entry path with duplicate check)
  backend/routers/chat.py             (chat endpoint, intent extraction, multi-intent merge)
  backend/services/chat_service.py    (conversation-history persistence)
  backend/services/tools/budget_tool.py          (rule classifier, query scope)
  backend/services/tools/calorie_tool.py         (query scope)
  backend/services/tools/budget_analysis_tool.py (50/30/20 analyzer)

Modelling conventions:
  - python `datetime` values are records of natural-number fields; the proleptic
    Gregorian calendar (python's `calendar` module semantics) is embedded
    explicitly (`isLeap`, `daysInMonth`, `daysFromCivil`).
  - python floats are modelled as rationals (exact arithmetic).
  - fallible calls (the completion service, the relational store) are modelled
    as `Option`/`Except` parameters: `none`/`.error` is the raised-exception
    outcome the surrounding `try/except` reacts to.
  - strings are processed as `List Char`; character classes (digits, word
    characters, whitespace) are the ASCII ones, matching the ASCII inputs the
    routes handle.
-/

namespace Plexi

/-! ## String helpers (ASCII) -/

/-- ASCII lower-casing of a character, modelling python `str.lower` on ASCII
text (`Char.toLower` is exactly the basic-latin transformation). -/
def lowerChar (c : Char) : Char := c.toLower

/-- ASCII lower-casing of a character list. -/
def lowerList (l : List Char) : List Char := l.map lowerChar

/-- ASCII lower-casing of a string, modelling python `str.lower` on ASCII text. -/
def lowerStr (s : String) : String := ⟨lowerList s.toList⟩

/-- `leadsWith n h` is true when `n` is an initial segment of `h`
(python `str.startswith`). -/
def leadsWith : List Char → List Char → Bool
  | [], _ => true
  | _ :: _, [] => false
  | a :: n, b :: h => a == b && leadsWith n h

/-- `hasSub n h` is true when `n` occurs contiguously inside `h`
(python `needle in haystack`). -/
def hasSub (n : List Char) : List Char → Bool
  | [] => leadsWith n []
  | c :: t => leadsWith n (c :: t) || hasSub n t

/-- String-level containment test, modelling python `needle in haystack`. -/
def strHas (hay needle : String) : Bool := hasSub needle.toList hay.toList

/-- ASCII whitespace, the characters python `int()` / `str.strip` remove. -/
def isSpaceCh (c : Char) : Bool :=
  c == ' ' || c == '\t' || c == '\n' || c == '\x0d' || c == '\x0b' || c == '\x0c'

/-- Strip ASCII whitespace from both ends (python `str.strip()`). -/
def trimWs (l : List Char) : List Char :=
  ((l.dropWhile isSpaceCh).reverse.dropWhile isSpaceCh).reverse

/-- Tail of a python integer literal: digits optionally separated by single
underscores (`int("1_0") == 10`). -/
def digitsTail : List Char → Bool
  | [] => true
  | '_' :: c :: t => c.isDigit && digitsTail t
  | c :: t => c.isDigit && digitsTail t

/-- A nonempty digit sequence with optional single underscores between digits. -/
def pyDigitsCore : List Char → Bool
  | [] => false
  | c :: t => c.isDigit && digitsTail t

/-- Numeric value of a digit sequence (underscores skipped). -/
def digitsVal (l : List Char) : Nat :=
  (l.filter (fun c => c ≠ '_')).foldl (fun a c => a * 10 + (c.toNat - 48)) 0

/-- Model of python `int(s)` for nonnegative inputs: strip whitespace, allow a
leading `+`, then digits with optional underscores.  (A leading `-` never
reaches this parser in the embedded code: the month string was already split
on `-`.) -/
def pyNat? (s : String) : Option Nat :=
  let l := trimWs s.toList
  let l' := match l with
    | '+' :: t => t
    | _ => l
  if pyDigitsCore l' then some (digitsVal l') else none

/-- Model of python `str.isdigit()` on ASCII text. -/
def allDigits (s : String) : Bool :=
  !s.toList.isEmpty && s.toList.all Char.isDigit

/-- Split a character list at every `-`, modelling python `s.split('-')`. -/
def splitDash : List Char → List (List Char)
  | [] => [[]]
  | c :: t =>
    if c = '-' then [] :: splitDash t
    else
      match splitDash t with
      | [] => [[c]]
      | h :: r => (c :: h) :: r

/-! ## Proleptic Gregorian calendar (python `calendar` / `datetime` semantics) -/

/-- Leap year test, python `calendar.isleap`. -/
def isLeap (y : Nat) : Bool :=
  y % 4 == 0 && (y % 100 != 0 || y % 400 == 0)

/-- Length of a month, the second component of python `calendar.monthrange`.
Months outside 1..12 never reach this function in the embedded code. -/
def daysInMonth (y m : Nat) : Nat :=
  if m = 2 then (if isLeap y then 29 else 28)
  else if m = 4 ∨ m = 6 ∨ m = 9 ∨ m = 11 then 30
  else 31

/-- Days in months strictly before month `m` of a non-leap year. -/
def cumDays : Nat → Nat
  | 1 => 0
  | 2 => 31
  | 3 => 59
  | 4 => 90
  | 5 => 120
  | 6 => 151
  | 7 => 181
  | 8 => 212
  | 9 => 243
  | 10 => 273
  | 11 => 304
  | 12 => 334
  | _ => 0

/-- Number of leap years in `1..n`. -/
def leapCount (n : Nat) : Nat := n / 4 - n / 100 + n / 400

/-- Days in years strictly before year `y` (year 1 is the first year). -/
def daysBeforeYear (y : Nat) : Nat := 365 * (y - 1) + leapCount (y - 1)

/-- Days in the months of year `y` strictly before month `m`. -/
def daysBeforeMonth (y m : Nat) : Nat :=
  cumDays m + (if 3 ≤ m ∧ isLeap y then 1 else 0)

/-- Day count of a civil date from the epoch 0001-01-01 (which is day 0, a
Monday — so `daysFromCivil … % 7` is exactly python `date.weekday()`). -/
def daysFromCivil (y m d : Nat) : Nat :=
  daysBeforeYear y + daysBeforeMonth y m + (d - 1)

/-- A calendar date. -/
structure Date where
  year : Nat
  month : Nat
  day : Nat
deriving DecidableEq, Repr

/-- Validity of a `Date` under python `datetime` (MINYEAR = 1, MAXYEAR = 9999). -/
def ValidDate (t : Date) : Prop :=
  1 ≤ t.year ∧ t.year ≤ 9999 ∧ 1 ≤ t.month ∧ t.month ≤ 12 ∧
    1 ≤ t.day ∧ t.day ≤ daysInMonth t.year t.month

instance (t : Date) : Decidable (ValidDate t) := by
  unfold ValidDate; infer_instance

/-- The previous calendar day, modelling `datetime - timedelta(days=1)`.
At the unrepresentable edge (0001-01-01, where python raises OverflowError
before any window is produced) the date is returned unchanged; under the
validity hypotheses used below this branch is never taken. -/
def prevDay (t : Date) : Date :=
  if 2 ≤ t.day then ⟨t.year, t.month, t.day - 1⟩
  else if 2 ≤ t.month then ⟨t.year, t.month - 1, daysInMonth t.year (t.month - 1)⟩
  else if 2 ≤ t.year then ⟨t.year - 1, 12, 31⟩
  else t

/-- `n` applications of `prevDay`, modelling `datetime - timedelta(days=n)`. -/
def prevDays : Nat → Date → Date
  | 0, t => t
  | n + 1, t => prevDays n (prevDay t)

/-- Weekday of a date, python `date.weekday()`: Monday is 0, Sunday is 6. -/
def weekdayOf (t : Date) : Nat := daysFromCivil t.year t.month t.day % 7

/-- A timestamp with second resolution, modelling a (timezone-naive) python
`datetime`. -/
structure DT where
  year : Nat
  month : Nat
  day : Nat
  hour : Nat
  minute : Nat
  second : Nat
deriving DecidableEq, Repr

/-- The date part of a timestamp. -/
def DT.date (t : DT) : Date := ⟨t.year, t.month, t.day⟩

/-- Validity of a timestamp under python `datetime`. -/
def ValidDT (t : DT) : Prop :=
  ValidDate t.date ∧ t.hour ≤ 23 ∧ t.minute ≤ 59 ∧ t.second ≤ 59

instance (t : DT) : Decidable (ValidDT t) := by
  unfold ValidDT; infer_instance

/-- Midnight at a date, `datetime(y, m, d)`. -/
def atMidnight (t : Date) : DT := ⟨t.year, t.month, t.day, 0, 0, 0⟩

/-- End of day at a date, `datetime(y, m, d, 23, 59, 59)`. -/
def atDayEnd (t : Date) : DT := ⟨t.year, t.month, t.day, 23, 59, 59⟩

/-- Seconds from the epoch; the linearisation used to compare window bounds. -/
def toSec (t : DT) : Nat :=
  daysFromCivil t.year t.month t.day * 86400 +
    t.hour * 3600 + t.minute * 60 + t.second

/-! ## Period-window resolution
(`VirtualAssistantDB.get_transactions_by_period`, db_service.py:1987-2088;
the identical date logic appears in `get_raw_calorie_entries`,
db_service.py:1775-1826). -/

/-- Parse the explicit month argument of the monthly branch: a 1-2 digit
numeric string is combined with the reference year, otherwise the string is
split on `-` and unpacked as `YYYY-MM`; `none` is any outcome on which python
raises (`ValueError` from `int`/unpacking, `IllegalMonthError` from
`calendar.monthrange`, out-of-range year in `datetime(...)`). -/
def parseMonthSpec (refYear : Nat) (month : String) : Option (Nat × Nat) :=
  if month.length ≤ 2 ∧ allDigits month then
    let m := digitsVal month.toList
    if 1 ≤ m ∧ m ≤ 12 ∧ 1 ≤ refYear ∧ refYear ≤ 9999 then some (refYear, m) else none
  else
    match splitDash month.toList with
    | [a, b] =>
      match pyNat? ⟨a⟩, pyNat? ⟨b⟩ with
      | some y, some m =>
        if 1 ≤ m ∧ m ≤ 12 ∧ 1 ≤ y ∧ y ≤ 9999 then some (y, m) else none
      | _, _ => none
    | _ => none

/-- The current-month window of the reference instant (the fallback of the
monthly branch). -/
def currentMonthRange (now : DT) : DT × DT :=
  (atMidnight ⟨now.year, now.month, 1⟩,
   atDayEnd ⟨now.year, now.month, daysInMonth now.year now.month⟩)

/-- The monthly / specific-month branch of `get_transactions_by_period`:
`if month: try: ... except: fall back to the current month`. -/
def monthlyRange (now : DT) (month : Option String) : DT × DT :=
  match month with
  | none => currentMonthRange now
  | some s =>
    if s = "" then currentMonthRange now
    else
      match parseMonthSpec now.year s with
      | some (y, m) => (atMidnight ⟨y, m, 1⟩, atDayEnd ⟨y, m, daysInMonth y m⟩)
      | none => currentMonthRange now

/-- Window resolution of `get_transactions_by_period`: daily and weekly are
day-aligned around the reference instant, weekly starting
`now.weekday()` days earlier, yearly is calendar-aligned, and every other
period keyword (including `specific_month`) takes the monthly branch. -/
def periodRange (now : DT) (period : String) (month : Option String) : DT × DT :=
  if period = "daily" then
    (atMidnight now.date, atDayEnd now.date)
  else if period = "weekly" then
    (atMidnight (prevDays (weekdayOf now.date) now.date), atDayEnd now.date)
  else if period = "yearly" then
    (atMidnight ⟨now.year, 1, 1⟩, atDayEnd ⟨now.year, 12, 31⟩)
  else
    monthlyRange now month

/-! ## Deterministic expense classifier
(`BudgetTool.category_patterns` / `BudgetTool.categorize_expense` /
`BudgetTool._ai_categorize`, budget_tool.py:66-75, 269-347). -/

/-- A regex word character (`\b` boundary class) over ASCII text. -/
def isWordCh (c : Char) : Bool := c.isAlphanum || c == '_'

/-- Keyword match at the head of `hay`, with word boundaries on both sides;
`prev` is the character just before the current position (none at the start
of the text).  All embedded keywords begin and end with word characters, so
`\b` holds exactly when the adjacent character is absent or non-word. -/
def bHere (kw : List Char) (prev : Option Char) (hay : List Char) : Bool :=
  (match prev with | none => true | some c => !isWordCh c) &&
  leadsWith kw hay &&
  (match (hay.drop kw.length).head? with | none => true | some c => !isWordCh c)

/-- Search `hay` for a word-bounded occurrence of `kw`
(python `re.search` of `(?i)\b...\b` on lower-cased text). -/
def bSearch (kw : List Char) (prev : Option Char) : List Char → Bool
  | [] => bHere kw prev []
  | c :: t => bHere kw prev (c :: t) || bSearch kw (some c) t

/-- A compiled alternation group `\b(k1|k2|...)\b` matches iff some
alternative occurs word-bounded (the regex engine backtracks through the
alternatives at every position). -/
def groupMatch (kws : List String) (hay : List Char) : Bool :=
  kws.any (fun k => bSearch k.toList none hay)

/-- The priority order in which `categorize_expense` tests the pattern
groups (budget_tool.py:278). -/
def priorityOrder : List String :=
  ["dining", "groceries", "transport", "entertainment", "shopping", "housing",
   "investment", "savings"]

/-- The keyword alternatives of each category pattern
(budget_tool.py:66-75, transcribed from the compiled regexes). -/
def categoryKeywords : String → List String
  | "dining" =>
    ["restaurant", "dining", "dinning", "dine", "dinner", "lunch", "breakfast",
     "eat", "eating", "ate", "food", "meal", "cafe", "bistro", "brunch",
     "takeout", "take away", "food delivery", "fast food", "pizza", "sushi",
     "burger", "taco", "restaurants", "dining out", "eat out", "cafe", "bistro",
     "brunch", "takeout", "take away", "food delivery", "bar", "pub", "tavern",
     "drinks", "cocktail", "beer", "wine"]
  | "groceries" =>
    ["grocery", "supermarket", "market", "groceries", "food", "snacks",
     "produce", "dairy", "meat", "bakery", "cereal", "pantry", "staples",
     "walmart", "kroger", "trader joe\x27s", "whole foods"]
  | "transport" =>
    ["bus", "train", "subway", "metro", "taxi", "uber", "lyft", "car", "fuel",
     "car payment", "car insurance", "auto insurance", "vehicle payment",
     "vehicle insurance"]
  | "entertainment" =>
    ["movie", "theatre", "concert", "show", "game", "entertainment", "netflix",
     "subscription"]
  | "shopping" =>
    ["clothes", "shoes", "shopping", "amazon", "online", "store", "mall"]
  | "housing" =>
    ["rent", "mortgage", "utilities", "electricity", "water", "internet",
     "housing", "gas bill", "phone", "cell phone", "mobile plan", "phone bill",
     "insurance"]
  | "investment" => ["investment", "invest", "stock", "bond", "401k", "ira"]
  | "savings" => ["save", "saving"]
  | _ => []

/-- The closed category set accepted from the model fallback
(budget_tool.py:326). -/
def validCategories : List String :=
  ["dining", "groceries", "transport", "entertainment", "shopping", "housing",
   "investment", "savings", "other"]

/-- The substring heuristics applied to an out-of-set fallback label
(budget_tool.py:328-345). -/
def aiHeuristic (c : String) : String :=
  if strHas c "food" || strHas c "restaurant" || strHas c "eat" || strHas c "bar" then
    "dining"
  else if strHas c "market" || strHas c "grocer" then "groceries"
  else if strHas c "travel" || strHas c "car" || strHas c "gas" then "transport"
  else if strHas c "movie" || strHas c "game" || strHas c "fun" then "entertainment"
  else if strHas c "cloth" || strHas c "buy" || strHas c "purchase" then "shopping"
  else if strHas c "home" || strHas c "rent" || strHas c "bill" then "housing"
  else if strHas c "invest" || strHas c "stock" then "investment"
  else if strHas c "save" then "savings"
  else "other"

/-- Post-processing of the raw fallback completion text
(`_ai_categorize`: `.strip().lower()`, closed-set check, heuristics). -/
def aiCategorize (raw : String) : String :=
  let c : String := ⟨lowerList (trimWs raw.toList)⟩
  if c ∈ validCategories then c else aiHeuristic c

/-- `BudgetTool.categorize_expense`.  `fallbackRaw` is the completion-service
outcome consulted only when no pattern matches: `some raw` is the returned
text, `none` the raised exception (whose handler returns `"other"`,
budget_tool.py:290-292). -/
def categorize_expense (fallbackRaw : Option String) (description : String) : String :=
  if description = "" then "other"
  else
    let d := lowerList description.toList
    match priorityOrder.find? (fun c => groupMatch (categoryKeywords c) d) with
    | some cat => cat
    | none =>
      match fallbackRaw with
      | some raw => aiCategorize raw
      | none => "other"

/-! ## Query-scope resolution
(`BudgetTool.determine_query_scope`, budget_tool.py:479-507, and
`CalorieTool.determine_query_scope`, calorie_tool.py:456-484 — the two
bodies are transcribed separately below). -/

/-- The month table, in its python insertion order. -/
def monthTable : List (String × String) :=
  [("january", "01"), ("february", "02"), ("march", "03"), ("april", "04"),
   ("may", "05"), ("june", "06"), ("july", "07"), ("august", "08"),
   ("september", "09"), ("october", "10"), ("november", "11"), ("december", "12")]

/-- `BudgetTool.determine_query_scope`. -/
def budget_determine_query_scope (message : String) : String × Option String :=
  let m := lowerStr message
  match monthTable.find? (fun p => strHas m p.1) with
  | some p => ("specific_month", some p.2)
  | none =>
    if ["today", "now", "current"].any (fun w => strHas m w) then ("daily", none)
    else if ["week", "weekly", "7 days"].any (fun w => strHas m w) then ("weekly", none)
    else if ["year", "yearly", "this year"].any (fun w => strHas m w) then ("yearly", none)
    else if ["month", "monthly"].any (fun w => strHas m w) then ("monthly", none)
    else ("daily", none)

/-- `CalorieTool.determine_query_scope` (same algorithm, transcribed from the
calorie tool). -/
def calorie_determine_query_scope (message : String) : String × Option String :=
  let m := lowerStr message
  match monthTable.find? (fun p => strHas m p.1) with
  | some p => ("specific_month", some p.2)
  | none =>
    if ["today", "now", "current"].any (fun w => strHas m w) then ("daily", none)
    else if ["week", "weekly", "7 days"].any (fun w => strHas m w) then ("weekly", none)
    else if ["year", "yearly", "this year"].any (fun w => strHas m w) then ("yearly", none)
    else if ["month", "monthly"].any (fun w => strHas m w) then ("monthly", none)
    else ("daily", none)

/-! ## Budget-allocation analyzer
(`BudgetAnalysisTool.analyze_budget` / `_generate_recommendations`,
budget_analysis_tool.py:39-79, 165-212).  Monetary floats are modelled as
rationals. -/

/-- A needs/wants/savings split. -/
structure Alloc where
  needs : ℚ
  wants : ℚ
  savings : ℚ
deriving DecidableEq, Repr

/-- A budget recommendation (the formatted `message` string of the source,
built from the same numbers, is not re-modelled). -/
structure Recommendation where
  category : String
  rtype : String
  suggested_action : String
  potential_savings : ℚ
deriving DecidableEq, Repr

/-- Percentage of salary, with the python falsy-zero guard
(`(x / salary) * 100 if salary else 0`). -/
def pctOf (salary x : ℚ) : ℚ := if salary ≠ 0 then x / salary * 100 else 0

/-- The 50/30/20 ideal allocation (budget_analysis_tool.py:47-51). -/
def ideal_allocations (salary : ℚ) : Alloc :=
  ⟨salary * (50 / 100), salary * (30 / 100), salary * (20 / 100)⟩

/-- The deterministic rule tier of `_generate_recommendations`: the loop over
`["needs", "wants", "savings"]` has no rule for needs, flags a wants
overspend at `difference > 5` and a savings shortfall at `difference < -5`. -/
def basic_recommendations (ideal actual : Alloc) (salary : ℚ) : List Recommendation :=
  (if pctOf salary actual.wants - pctOf salary ideal.wants > 5 then
    [⟨"wants", "reduce_spending", "Consider reducing discretionary spending.",
      actual.wants - ideal.wants⟩]
   else []) ++
  (if pctOf salary actual.savings - pctOf salary ideal.savings < -5 then
    [⟨"savings", "increase_savings", "Try to increase your monthly savings.",
      ideal.savings - actual.savings⟩]
   else [])

/-- `_generate_recommendations`: the enrichment tier outcome `ai` is `some l`
(the parsed model recommendations) or `none` (its exception, caught at
budget_analysis_tool.py:209-212); the rule tier is appended after it in both
cases. -/
def generate_recommendations (ai : Option (List Recommendation))
    (ideal actual : Alloc) (salary : ℚ) : List Recommendation :=
  match ai with
  | some l => l ++ basic_recommendations ideal actual salary
  | none => basic_recommendations ideal actual salary

/-- The result shape of `analyze_budget`. -/
structure AnalysisResult where
  monthly_salary : ℚ
  ideal : Alloc
  actual : Alloc
  total : ℚ
  recommendations : List Recommendation
deriving DecidableEq, Repr

/-- `BudgetAnalysisTool.analyze_budget` for a resolved salary and the
categorised actual spending. -/
def analyze_budget (salary : ℚ) (actual : Alloc)
    (ai : Option (List Recommendation)) : AnalysisResult :=
  { monthly_salary := salary
    ideal := ideal_allocations salary
    actual := actual
    total := actual.needs + actual.wants + actual.savings
    recommendations := generate_recommendations ai (ideal_allocations salary) actual salary }

/-! ## Direct calorie-entry path with duplicate check
(`add_calorie_entry`, routers/calories.py:33-273). -/

/-- The candidate entry of the direct logging route (`CalorieEntry` after the
numeric conversions of calories.py:140-198). -/
structure CandidateEntry where
  food_item : String
  calories : Int
  unit : String
deriving DecidableEq, Repr

/-- A row returned by `get_raw_calorie_entries(user, period="daily")`.
`tsParses` records whether the row timestamp is a datetime or an
isoformat-parseable string (an unparseable one raises `ValueError`, which the
per-row `except` turns into `continue`). -/
structure RecentEntry where
  food_item : String
  calories : Option Int
  tsParses : Bool
deriving DecidableEq, Repr

/-- The `similar_food` test of calories.py:102-106: case-insensitive equality
or containment either way. -/
def similar_food (cand : CandidateEntry) (r : RecentEntry) : Bool :=
  lowerStr cand.food_item == lowerStr r.food_item ||
  strHas (lowerStr r.food_item) (lowerStr cand.food_item) ||
  strHas (lowerStr cand.food_item) (lowerStr r.food_item)

/-- The `similar_calories` test of calories.py:108-111: absolute calorie
difference below 10, false when the stored calories are NULL. -/
def similar_calories (cand : CandidateEntry) (r : RecentEntry) : Bool :=
  match r.calories with
  | some c => (cand.calories - c).natAbs < 10
  | none => false

/-- The duplicate condition the route claims to apply (spec §4.4 / the
source comments at calories.py:101 and 113): some recent entry passes both
similarity tests. -/
def specDuplicate (cand : CandidateEntry) (recents : List RecentEntry) : Bool :=
  recents.any (fun r => similar_food cand r && similar_calories cand r)

/-- Unit-prefix cleanup of the food name (calories.py:133-138). -/
def cleanFoodItem (food unit : String) : String :=
  if unit ≠ "" ∧ unit ≠ "serving" ∧
      leadsWith (lowerStr unit).toList (lowerStr food).toList then
    ⟨trimWs (food.toList.drop unit.toList.length)⟩
  else food

/-- Outcome of the direct-entry route. -/
inductive AddEntryOutcome
  | duplicate (message : String)
  | saved (food_item : String) (calories : Int)
deriving DecidableEq, Repr

/-- The duplicate-check loop of `add_calorie_entry` (calories.py:74-131).
The body parses the row timestamp, computes `time_diff`, `similar_food` and
`similar_calories` — and then returns the duplicate response without ever
testing them (the guard announced by the comment at line 113 is absent).
Hence the loop returns "already exists" for the first recent row whose
timestamp parses, regardless of similarity, and only a row-less (or
unparseable-throughout) day reaches the save path. -/
def add_calorie_entry (cand : CandidateEntry) (recents : List RecentEntry) :
    AddEntryOutcome :=
  match recents.find? (fun r => r.tsParses) with
  | some _ =>
    let _unusedSimilar := recents.map (fun r => (similar_food cand r, similar_calories cand r))
    .duplicate ("Entry for " ++ cand.food_item ++ " already exists")
  | none => .saved (cleanFoodItem cand.food_item cand.unit) cand.calories

/-! ## Conversation-history persistence around the chat endpoint
(`chat`, routers/chat.py:148-223; `ChatService.save_message`,
chat_service.py:16-70, whose `except` clause logs and RE-RAISES). -/

/-- The response shape the chat endpoint computes before attaching saved
messages. -/
structure ChatResp where
  response : String
  success : Bool
deriving DecidableEq, Repr

/-- The chat endpooint around `process_chat_message`: the user message is
saved before processing and the assistant message after it; both saves go
through `ChatService.save_message`, which re-raises on failure, and the
endpoint's catch-all converts any exception into an HTTP 500 (`.error`).
Saved messages are represented by their assigned ids. -/
def chat_endpoint (saveUserMsg : Except String Nat) (processResult : ChatResp)
    (saveAssistantMsg : Except String Nat) :
    Except String (ChatResp × Nat × Nat) :=
  match saveUserMsg with
  | .error e => .error e
  | .ok uid =>
    match saveAssistantMsg with
    | .error e => .error e
    | .ok aid => .ok (processResult, uid, aid)

/-! ## Ledger update
(`VirtualAssistantDB.update_calorie_entry`, db_service.py:1495-1621). -/

/-- A row of the `meals` table (numeric columns after the source's
conversions; floats as rationals). -/
structure MealRow where
  id : Nat
  user_id : String
  food_item : String
  calories : Int
  carbs : Option ℚ
  protein : Option ℚ
  fat : Option ℚ
  quantity : ℚ
  unit : String
deriving DecidableEq, Repr

/-- The sparse `food_info` dict: `some` marks a key present in the dict
(`"x" in food_info`); for the nullable macro columns the present value may
itself be NULL. -/
structure FoodPatch where
  food_item : Option String
  calories : Option Int
  carbs : Option (Option ℚ)
  protein : Option (Option ℚ)
  fat : Option (Option ℚ)
  quantity : Option ℚ
  unit : Option String
deriving DecidableEq, Repr

/-- The empty patch (`food_info == {}`). -/
def emptyPatch : FoodPatch := ⟨none, none, none, none, none, none, none⟩

/-- Number of `SET` assignments the source builds (length of
`update_fields`). -/
def patchFieldCount (p : FoodPatch) : Nat :=
  (if p.food_item.isSome then 1 else 0) + (if p.calories.isSome then 1 else 0) +
  (if p.carbs.isSome then 1 else 0) + (if p.protein.isSome then 1 else 0) +
  (if p.fat.isSome then 1 else 0) + (if p.quantity.isSome then 1 else 0) +
  (if p.unit.isSome then 1 else 0)

/-- Overwrite exactly the supplied fields of a row. -/
def applyPatch (p : FoodPatch) (r : MealRow) : MealRow :=
  { r with
    food_item := p.food_item.getD r.food_item
    calories := p.calories.getD r.calories
    carbs := p.carbs.getD r.carbs
    protein := p.protein.getD r.protein
    fat := p.fat.getD r.fat
    quantity := p.quantity.getD r.quantity
    unit := p.unit.getD r.unit }

/-- `update_calorie_entry`: the ownership check returns false on a miss; a
non-empty patch updates the matching row and reports `UPDATE 1`; an empty
patch builds `UPDATE meals SET  WHERE ...` — a statement with no assignments,
which the store rejects as a syntax error, and the function's `except` clause
re-raises (`.error`). -/
def update_calorie_entry (table : List MealRow) (uid : String) (eid : Nat)
    (p : FoodPatch) : Except String (Bool × List MealRow) :=
  if table.any (fun r => r.id == eid && r.user_id == uid) then
    if patchFieldCount p = 0 then
      .error "PostgresSyntaxError: syntax error at or near WHERE"
    else
      .ok (true, table.map (fun r =>
        if r.id == eid && r.user_id == uid then applyPatch p r else r))
  else
    .ok (false, table)

/-! ## Multi-intent dispatch and merge
(`process_chat_message`, routers/chat.py:247-313). -/

/-- The merged chat response: one text plus the three structured payload
sub-fields.  Payload types are abstract. -/
structure MergedResp (E C R : Type) where
  response : String
  expense_info : Option E
  calorie_info : Option C
  restaurant_suggestions : Option R
deriving DecidableEq, Repr

/-- Loop state of the multi-intent branch: the `processed_tools` set, the
collected `tool_responses` fragments, and the three payload slots. -/
structure MultiState (E C R : Type) where
  processed : List String
  frags : List String
  e : Option E
  c : Option C
  r : Option R
deriving DecidableEq, Repr

/-- One iteration of `for intent_data in multiple_intents` for an intent with
the given `tool` value.  Handler outcomes are given as (structured payload,
text fragment) pairs; unknown tools fall through without dispatch. -/
def multiStep {E C R : Type} (cal : Option C × String) (bud : Option E × String)
    (rest : Option R × String) (st : MultiState E C R) (tool : String) :
    MultiState E C R :=
  if tool ∈ st.processed then st
  else if tool = "calories" then
    { st with c := cal.1, frags := st.frags ++ [cal.2],
              processed := st.processed ++ ["calories"] }
  else if tool = "budget" then
    { st with e := bud.1, frags := st.frags ++ [bud.2],
              processed := st.processed ++ ["budget"] }
  else if tool = "restaurant" then
    { st with r := rest.1, frags := st.frags ++ [rest.2],
              processed := st.processed ++ ["restaurant"] }
  else st

/-- The multi-intent branch: fold the intents' tool values through the loop,
then join the fragments with the separator (keeping the placeholder text when
no handler produced a fragment). -/
def process_multi {E C R : Type} (intents : List String) (cal : Option C × String)
    (bud : Option E × String) (rest : Option R × String) : MergedResp E C R :=
  let st := intents.foldl (multiStep cal bud rest) ⟨[], [], none, none, none⟩
  ⟨if st.frags.isEmpty then "I\x27ll help you with that."
   else String.intercalate " \n\n" st.frags,
   st.e, st.c, st.r⟩

/-- Top of `process_chat_message`: a non-empty multi-intent array takes the
multi branch, otherwise the single best-guess handler result is returned. -/
def process_chat_message {E C R : Type} (multi : List String)
    (single : MergedResp E C R) (cal : Option C × String)
    (bud : Option E × String) (rest : Option R × String) : MergedResp E C R :=
  if multi.isEmpty then single else process_multi multi cal bud rest

/-- The tools the multi-intent loop dispatches on. -/
def knownTools : List String := ["calories", "budget", "restaurant"]

/-- First occurrences of known tools, in order: the dispatch list of the
multi-intent loop (specification-side description used to state C7). -/
def occFilter (seen : List String) : List String → List String
  | [] => []
  | t :: ts =>
    if t ∈ knownTools ∧ t ∉ seen then t :: occFilter (seen ++ [t]) ts
    else occFilter seen ts

/-- The fragment each dispatched tool contributes. -/
def fragOf {E C R : Type} (cal : Option C × String) (bud : Option E × String)
    (rest : Option R × String) (t : String) : String :=
  if t = "calories" then cal.2 else if t = "budget" then bud.2 else rest.2

/-! ## Intent extraction defaults
(`determine_intent` / `extract_multiple_intents`, routers/chat.py:31-146). -/

/-- A `{tool, action}` intent. -/
structure Intent where
  tool : String
  action : String
deriving DecidableEq, Repr

/-- `determine_intent`: the completion call may raise (`.error`), and its
text may fail JSON decoding (`parse` returns `none`); both default to
`{conversation, chat}`. -/
def determine_intent (svc : Except Unit String) (parse : String → Option Intent) :
    Intent :=
  match svc with
  | .error _ => ⟨"conversation", "chat"⟩
  | .ok s =>
    match parse s with
    | some i => i
    | none => ⟨"conversation", "chat"⟩

/-- `extract_multiple_intents`: any failure of the completion call or of the
JSON decode defaults to the empty array. -/
def extract_multiple_intents (svc : Except Unit String)
    (parse : String → Option (List Intent)) : List Intent :=
  match svc with
  | .error _ => []
  | .ok s => (parse s).getD []

/-! ## Calendar lemmas -/

theorem daysInMonth_pos (y m : Nat) : 1 ≤ daysInMonth y m := by
  unfold daysInMonth
  split_ifs <;> norm_num

theorem daysInMonth_le_31 (y m : Nat) : daysInMonth y m ≤ 31 := by
  unfold daysInMonth
  split_ifs <;> norm_num

set_option maxHeartbeats 1000000 in
theorem daysBeforeMonth_step (y m : Nat) (h2 : 2 ≤ m) (h12 : m ≤ 12) :
    daysBeforeMonth y m = daysBeforeMonth y (m - 1) + daysInMonth y (m - 1) := by
  cases hl : isLeap y <;> interval_cases m <;>
    simp [daysBeforeMonth, cumDays, daysInMonth, hl]

set_option maxHeartbeats 1600000 in
theorem leapCount_succ (n : Nat) (h : 1 ≤ n) :
    leapCount n = leapCount (n - 1) + (if isLeap n then 1 else 0) := by
  have hiff : (isLeap n = true) ↔ (n % 4 = 0 ∧ (n % 100 ≠ 0 ∨ n % 400 = 0)) := by
    unfold isLeap
    simp
  rw [leapCount, leapCount]
  split_ifs with hLp
  · rw [hiff] at hLp
    omega
  · rw [hiff] at hLp
    push_neg at hLp
    omega

theorem prevDay_valid (t : Date) (ht : ValidDate t) : ValidDate (prevDay t) := by
  obtain ⟨h1, h2, h3, h4, h5, h6⟩ := ht
  unfold prevDay ValidDate
  split_ifs with hd hm hy <;> (try dsimp only)
  · exact ⟨h1, h2, h3, h4, by omega, by omega⟩
  · exact ⟨h1, h2, by omega, by omega, daysInMonth_pos _ _, le_refl _⟩
  · exact ⟨by omega, by omega, by norm_num, by norm_num, by norm_num, by simp [daysInMonth]⟩
  · exact ⟨h1, h2, h3, h4, h5, h6⟩

theorem civil_zero (t : Date) (ht : ValidDate t)
    (h0 : daysFromCivil t.year t.month t.day = 0) : t = ⟨1, 1, 1⟩ := by
  obtain ⟨h1, h2, h3, h4, h5, h6⟩ := ht
  unfold daysFromCivil daysBeforeYear at h0
  have hy : t.year = 1 := by omega
  have hm : daysBeforeMonth t.year t.month = 0 := by omega
  have hd : t.day = 1 := by omega
  have hmm : t.month = 1 := by
    by_contra hne
    have h2' : 2 ≤ t.month := by omega
    unfold daysBeforeMonth at hm
    interval_cases ht : t.month <;> simp [cumDays] at hm
  cases t
  simp_all

theorem prevDay_civil (t : Date) (ht : ValidDate t)
    (hD : 1 ≤ daysFromCivil t.year t.month t.day) :
    daysFromCivil (prevDay t).year (prevDay t).month (prevDay t).day
      = daysFromCivil t.year t.month t.day - 1 := by
  obtain ⟨h1, h2, h3, h4, h5, h6⟩ := ht
  unfold prevDay
  split_ifs with hd hm hy <;> (try dsimp only)
  · simp only [daysFromCivil]
    omega
  · have hstep := daysBeforeMonth_step t.year t.month hm h4
    have hpos := daysInMonth_pos t.year (t.month - 1)
    simp only [daysFromCivil]
    omega
  · have hd1 : t.day = 1 := by omega
    have hm1 : t.month = 1 := by omega
    have hlc := leapCount_succ (t.year - 1) (by omega)
    simp only [daysFromCivil, daysBeforeYear, daysBeforeMonth, cumDays, hm1]
    have h12 : ((3:Nat) ≤ 12) = True := by simp
    cases hl : isLeap (t.year - 1) <;> simp [hl] at hlc ⊢ <;> omega
  · exfalso
    have hy1 : t.year = 1 := by omega
    have hm1 : t.month = 1 := by omega
    have hd1 : t.day = 1 := by omega
    unfold daysFromCivil daysBeforeYear daysBeforeMonth cumDays leapCount at hD
    rw [hy1, hm1, hd1] at hD
    simp at hD

theorem prevDay_civil_le (t : Date) (ht : ValidDate t) :
    daysFromCivil (prevDay t).year (prevDay t).month (prevDay t).day
      ≤ daysFromCivil t.year t.month t.day := by
  by_cases hD : 1 ≤ daysFromCivil t.year t.month t.day
  · rw [prevDay_civil t ht hD]
    omega
  · have h0 : daysFromCivil t.year t.month t.day = 0 := by omega
    have := civil_zero t ht h0
    subst this
    simp [prevDay, daysFromCivil, daysBeforeYear, daysBeforeMonth, cumDays]

theorem prevDays_le (k : Nat) (t : Date) (ht : ValidDate t) :
    ValidDate (prevDays k t) ∧
      daysFromCivil (prevDays k t).year (prevDays k t).month (prevDays k t).day
        ≤ daysFromCivil t.year t.month t.day := by
  induction k generalizing t with
  | zero => exact ⟨ht, le_refl _⟩
  | succ n ih =>
    have hv := prevDay_valid t ht
    have hle := prevDay_civil_le t ht
    have := ih (prevDay t) hv
    exact ⟨this.1, le_trans this.2 hle⟩

theorem prevDays_civil (k : Nat) (t : Date) (ht : ValidDate t)
    (hk : k ≤ daysFromCivil t.year t.month t.day) :
    ValidDate (prevDays k t) ∧
      daysFromCivil (prevDays k t).year (prevDays k t).month (prevDays k t).day
        = daysFromCivil t.year t.month t.day - k := by
  induction k generalizing t with
  | zero => exact ⟨ht, rfl⟩
  | succ n ih =>
    have hD : 1 ≤ daysFromCivil t.year t.month t.day := by omega
    have hv := prevDay_valid t ht
    have heq := prevDay_civil t ht hD
    have := ih (prevDay t) hv (by omega)
    refine ⟨this.1, ?_⟩
    rw [show prevDays (n + 1) t = prevDays n (prevDay t) from rfl, this.2, heq]
    omega

theorem month_window_le (y m d : Nat) :
    toSec (atMidnight ⟨y, m, 1⟩) ≤ toSec (atDayEnd ⟨y, m, d⟩) := by
  simp only [toSec, atMidnight, atDayEnd, daysFromCivil]
  omega

theorem monthlyRange_le (now : DT) (month : Option String) :
    toSec (monthlyRange now month).1 ≤ toSec (monthlyRange now month).2 := by
  unfold monthlyRange currentMonthRange
  cases month with
  | none => exact month_window_le _ _ _
  | some s =>
    by_cases hs : s = ""
    · simp [hs]
      exact month_window_le _ _ _
    · simp [hs]
      cases hp : parseMonthSpec now.year s with
      | none => exact month_window_le _ _ _
      | some p => exact month_window_le _ _ _

theorem splitDash_dashfree (l : List Char) (h : ∀ c ∈ l, c ≠ '-') :
    splitDash l = [l] := by
  induction l with
  | nil => rfl
  | cons c t ih =>
    have hc : c ≠ '-' := h c (by simp)
    have ht := ih (fun x hx => h x (by simp [hx]))
    simp [splitDash, hc, ht]

theorem splitDash_append (a b : List Char) (ha : ∀ c ∈ a, c ≠ '-') :
    splitDash (a ++ '-' :: b) = a :: splitDash b := by
  induction a with
  | nil => simp [splitDash]
  | cons c t ih =>
    have hc : c ≠ '-' := ha c (by simp)
    have ht := ih (fun x hx => ha x (by simp [hx]))
    simp [splitDash, hc, ht]

theorem allDigits_dash (a b : List Char) : allDigits ⟨a ++ '-' :: b⟩ = false := by
  simp only [allDigits, String.toList]
  rw [Bool.and_eq_false_iff]
  right
  rw [List.all_eq_false]
  exact ⟨'-', by simp, by decide⟩

theorem monthlyRange_digit_case (now : DT) (s : String) (hval : ValidDT now)
    (hdig : allDigits s = true) (hlen : s.length ≤ 2)
    (h1 : 1 ≤ digitsVal s.toList) (h12 : digitsVal s.toList ≤ 12) :
    monthlyRange now (some s) =
      (atMidnight ⟨now.year, digitsVal s.toList, 1⟩,
       atDayEnd ⟨now.year, digitsVal s.toList,
                 daysInMonth now.year (digitsVal s.toList)⟩) := by
  have hy1 : 1 ≤ now.year := hval.1.1
  have hy2 : now.year ≤ 9999 := hval.1.2.1
  have hne : s ≠ "" := by
    intro habs
    rw [habs] at hdig
    simp [allDigits, String.toList] at hdig
  rw [monthlyRange]
  simp only [hne, if_false]
  rw [parseMonthSpec]
  rw [if_pos ⟨hlen, hdig⟩]
  rw [if_pos ⟨h1, h12, hy1, hy2⟩]

theorem monthlyRange_yyyymm_case (now : DT) (a b : List Char) (y m : Nat)
    (ha : ∀ c ∈ a, c ≠ '-') (hb : ∀ c ∈ b, c ≠ '-')
    (hya : pyNat? ⟨a⟩ = some y) (hmb : pyNat? ⟨b⟩ = some m)
    (h1 : 1 ≤ m) (h12 : m ≤ 12) (hy1 : 1 ≤ y) (hy2 : y ≤ 9999) :
    monthlyRange now (some ⟨a ++ '-' :: b⟩) =
      (atMidnight ⟨y, m, 1⟩, atDayEnd ⟨y, m, daysInMonth y m⟩) := by
  have hne : (⟨a ++ '-' :: b⟩ : String) ≠ "" := by
    intro habs
    have : (⟨a ++ '-' :: b⟩ : String).data = ("" : String).data := by rw [habs]
    simp at this
  rw [monthlyRange]
  simp only [hne, if_false]
  rw [parseMonthSpec]
  rw [if_neg (by
    intro habs
    have := habs.2
    rw [allDigits_dash] at this
    exact Bool.false_ne_true this)]
  rw [show (⟨a ++ '-' :: b⟩ : String).toList = a ++ '-' :: b from rfl]
  rw [splitDash_append a b ha, splitDash_dashfree b hb]
  dsimp only
  rw [hya, hmb]
  dsimp only
  rw [if_pos ⟨h1, h12, hy1, hy2⟩]

theorem monthlyRange_fallback (now : DT) (s : String)
    (hp : parseMonthSpec now.year s = none) :
    monthlyRange now (some s) = currentMonthRange now := by
  rw [monthlyRange]
  by_cases hs : s = ""
  · simp [hs]
  · simp [hs, hp]

theorem pyNat?_ne_empty (s : String) (n : Nat) (h : pyNat? s = some n) :
    s.toList ≠ [] := by
  intro habs
  rw [pyNat?] at h
  rw [habs] at h
  simp [trimWs, pyDigitsCore] at h

/-- C4: monthly / specific-month window resolution: a 1-2 digit numeric month
is combined with the reference year; a `YYYY-MM` string yields that year and
month; the window runs from day 1 at 00:00:00 to the calendar-correct last
day at 23:59:59 (February has 28 days, 29 in leap years); and every malformed
month string falls back to the current month of the reference instant — the
resolver is total, no error reaches the caller. -/
theorem c4_month_resolution :
    (∀ (now : DT) (s : String), ValidDT now →
      allDigits s = true → s.length ≤ 2 →
      1 ≤ digitsVal s.toList → digitsVal s.toList ≤ 12 →
      monthlyRange now (some s) =
        (atMidnight ⟨now.year, digitsVal s.toList, 1⟩,
         atDayEnd ⟨now.year, digitsVal s.toList,
                   daysInMonth now.year (digitsVal s.toList)⟩)) ∧
    (∀ (now : DT) (a b : List Char) (y m : Nat),
      (∀ c ∈ a, c ≠ '-') → (∀ c ∈ b, c ≠ '-') →
      pyNat? ⟨a⟩ = some y → pyNat? ⟨b⟩ = some m →
      1 ≤ m → m ≤ 12 → 1 ≤ y → y ≤ 9999 →
      monthlyRange now (some ⟨a ++ '-' :: b⟩) =
        (atMidnight ⟨y, m, 1⟩, atDayEnd ⟨y, m, daysInMonth y m⟩)) ∧
    (∀ y : Nat, daysInMonth y 2 = if isLeap y then 29 else 28) ∧
    (monthlyRange ⟨2023, 7, 4, 10, 0, 0⟩ (some "02") =
      (atMidnight ⟨2023, 2, 1⟩, atDayEnd ⟨2023, 2, 28⟩)) ∧
    (monthlyRange ⟨2024, 7, 4, 10, 0, 0⟩ (some "02") =
      (atMidnight ⟨2024, 2, 1⟩, atDayEnd ⟨2024, 2, 29⟩)) ∧
    (∀ (now : DT) (s : String), parseMonthSpec now.year s = none →
      monthlyRange now (some s) = currentMonthRange now) := by
  refine ⟨monthlyRange_digit_case, monthlyRange_yyyymm_case, ?_, by decide, by decide,
    monthlyRange_fallback⟩
  intro y
  simp [daysInMonth]

/-- C4 witness: `"02"` against a leap reference year resolves to
February 1-29 of that year. -/
theorem c4_month_resolution_witness :
    monthlyRange ⟨2024, 7, 4, 10, 0, 0⟩ (some "02") =
      (atMidnight ⟨2024, 2, 1⟩, atDayEnd ⟨2024, 2, 29⟩) ∧
    monthlyRange ⟨2024, 7, 4, 10, 0, 0⟩ (some "banana") =
      currentMonthRange ⟨2024, 7, 4, 10, 0, 0⟩ := by
  constructor
  · have h := (c4_month_resolution.1 ⟨2024, 7, 4, 10, 0, 0⟩ "02"
      (by decide) (by decide) (by decide) (by decide) (by decide))
    rw [h]
    decide
  · exact c4_month_resolution.2.2.2.2.2 ⟨2024, 7, 4, 10, 0, 0⟩ "banana" (by decide)

/-- C5: for every period keyword and valid reference instant the resolved
window satisfies start ≤ end, and the weekly window starts at the reference
date minus its weekday index (a Monday) at 00:00:00 and ends at the reference
date at 23:59:59 (week-to-date). -/
theorem c5_period_window_invariant :
    (∀ (now : DT) (period : String) (month : Option String),
      ValidDT now →
      period ∈ (["daily", "weekly", "monthly", "yearly", "specific_month"] : List String) →
      toSec (periodRange now period month).1 ≤ toSec (periodRange now period month).2) ∧
    (∀ (now : DT) (month : Option String), ValidDT now →
      (periodRange now "weekly" month).1 =
        atMidnight (prevDays (weekdayOf now.date) now.date) ∧
      weekdayOf ((periodRange now "weekly" month).1).date = 0 ∧
      (periodRange now "weekly" month).2 = atDayEnd now.date) := by
  have hweek1 : ∀ (now : DT) (month : Option String),
      (periodRange now "weekly" month).1 =
        atMidnight (prevDays (weekdayOf now.date) now.date) ∧
      (periodRange now "weekly" month).2 = atDayEnd now.date := by
    intro now month
    rw [periodRange]
    rw [if_neg (by decide), if_pos rfl]
    exact ⟨rfl, rfl⟩
  have hmonday : ∀ (now : DT), ValidDT now →
      weekdayOf (prevDays (weekdayOf now.date) now.date) = 0 := by
    intro now hval
    have hvd : ValidDate now.date := hval.1
    have hk : weekdayOf now.date ≤
        daysFromCivil now.date.year now.date.month now.date.day := by
      unfold weekdayOf
      exact Nat.mod_le _ _
    obtain ⟨-, heq⟩ := prevDays_civil (weekdayOf now.date) now.date hvd hk
    unfold weekdayOf at heq ⊢
    rw [heq]
    omega
  constructor
  · intro now period month hval hmem
    have hvd : ValidDate now.date := hval.1
    simp only [List.mem_cons, List.not_mem_nil, or_false] at hmem
    rcases hmem with h | h | h | h | h <;> subst h
    · rw [periodRange, if_pos rfl]
      dsimp only [toSec, atMidnight, atDayEnd]
      omega
    · obtain ⟨h1, h2⟩ := hweek1 now month
      rw [h1, h2]
      obtain ⟨-, hle⟩ := prevDays_le (weekdayOf now.date) now.date hvd
      dsimp only [toSec, atMidnight, atDayEnd]
      omega
    · rw [periodRange, if_neg (by decide), if_neg (by decide), if_neg (by decide)]
      exact monthlyRange_le now month
    · rw [periodRange, if_neg (by decide), if_neg (by decide), if_pos rfl]
      dsimp only [toSec, atMidnight, atDayEnd]
      simp only [daysFromCivil, daysBeforeMonth, cumDays]
      split_ifs <;> omega
    · rw [periodRange, if_neg (by decide), if_neg (by decide), if_neg (by decide)]
      exact monthlyRange_le now month
  · intro now month hval
    obtain ⟨h1, h2⟩ := hweek1 now month
    refine ⟨h1, ?_, h2⟩
    rw [h1]
    exact hmonday now hval

/-- C5 witness: a concrete Thursday reference instant; the weekly window runs
from the preceding Monday at midnight to the reference day at 23:59:59. -/
theorem c5_period_window_invariant_witness :
    toSec (periodRange ⟨2026, 10, 15, 14, 30, 0⟩ "weekly" none).1 ≤
      toSec (periodRange ⟨2026, 10, 15, 14, 30, 0⟩ "weekly" none).2 ∧
    weekdayOf ((periodRange ⟨2026, 10, 15, 14, 30, 0⟩ "weekly" none).1).date = 0 := by
  constructor
  · exact c5_period_window_invariant.1 ⟨2026, 10, 15, 14, 30, 0⟩ "weekly" none
      (by decide) (by decide)
  · exact (c5_period_window_invariant.2 ⟨2026, 10, 15, 14, 30, 0⟩ none (by decide)).2.1

/-! ## Character-case lemmas -/

theorem toNat_ofNat_valid (n : Nat) (h : n < 0xd800) : (Char.ofNat n).toNat = n := by
  rw [Char.ofNat]
  rw [dif_pos (Or.inl h)]
  rfl

theorem toLower_eq_of_upper (c : Char) (h : 65 ≤ c.toNat ∧ c.toNat ≤ 90) :
    c.toLower = Char.ofNat (c.toNat + 32) := by
  rw [Char.toLower]
  rw [if_pos ⟨h.1, h.2⟩]

theorem toLower_eq_self (c : Char) (h : ¬(65 ≤ c.toNat ∧ c.toNat ≤ 90)) :
    c.toLower = c := by
  rw [Char.toLower]
  rw [if_neg h]

theorem toLower_idem (c : Char) : c.toLower.toLower = c.toLower := by
  by_cases h : 65 ≤ c.toNat ∧ c.toNat ≤ 90
  · rw [toLower_eq_of_upper c h]
    have h2 : (Char.ofNat (c.toNat + 32)).toNat = c.toNat + 32 :=
      toNat_ofNat_valid _ (by omega)
    apply toLower_eq_self
    rw [h2]
    omega
  · rw [toLower_eq_self c h]
    exact toLower_eq_self c h

theorem lowerList_idem (l : List Char) : lowerList (lowerList l) = lowerList l := by
  unfold lowerList
  rw [List.map_map]
  rw [show lowerChar ∘ lowerChar = lowerChar from funext fun c => toLower_idem c]

theorem lowerStr_ne_empty (s : String) (h : s ≠ "") : lowerStr s ≠ "" := by
  intro habs
  apply h
  have hd : (lowerStr s).data = ("" : String).data := by rw [habs]
  simp only [lowerStr, String.toList] at hd
  cases hs : s.data with
  | nil => cases s; simp_all
  | cons c t =>
    rw [hs] at hd
    simp [lowerList] at hd

/-! ## Classifier theorems -/

theorem categorize_of_ruleMatch (desc : String) (o : Option String) (cat : String)
    (hne : desc ≠ "")
    (hfind : priorityOrder.find?
      (fun c => groupMatch (categoryKeywords c) (lowerList desc.toList)) = some cat) :
    categorize_expense o desc = cat := by
  unfold categorize_expense
  rw [if_neg hne]
  dsimp only
  rw [hfind]

/-- C6: the rule stage of the classifier tests the description against one
pattern group per category in the fixed priority order and returns the first
match; the result is then independent of the completion-service collaborator
(no model fallback is consulted); matching is performed on the lower-cased
text, so classification is case-insensitive; and `"I spent $12 on sushi"`
classifies as `dining` for every fallback outcome. -/
theorem c6_classifier_rule_stage :
    (∀ (description : String) (svc svc' : Option String) (cat : String),
      description ≠ "" →
      priorityOrder.find?
        (fun c => groupMatch (categoryKeywords c) (lowerList description.toList))
          = some cat →
      categorize_expense svc description = cat ∧
      categorize_expense svc description = categorize_expense svc' description) ∧
    (∀ (description : String) (svc : Option String),
      categorize_expense svc (lowerStr description) = categorize_expense svc description) ∧
    (∀ svc : Option String,
      categorize_expense svc "I spent $12 on sushi" = "dining") := by
  refine ⟨?_, ?_, ?_⟩
  · intro desc svc svc' cat hne hfind
    exact ⟨categorize_of_ruleMatch desc svc cat hne hfind,
      (categorize_of_ruleMatch desc svc cat hne hfind).trans
        (categorize_of_ruleMatch desc svc' cat hne hfind).symm⟩
  · intro desc svc
    by_cases hd : desc = ""
    · subst hd
      rfl
    · have hne := lowerStr_ne_empty desc hd
      unfold categorize_expense
      rw [if_neg hne, if_neg hd]
      have hll : lowerList (lowerStr desc).toList = lowerList desc.toList :=
        lowerList_idem desc.toList
      dsimp only
      rw [hll]
  · intro svc
    exact categorize_of_ruleMatch _ svc _ (by decide) (by decide)

/-- C6 witness: the concrete dining example, with two different fallback
outcomes producing the same classification. -/
theorem c6_classifier_rule_stage_witness :
    categorize_expense (some "shopping") "I spent $12 on sushi" = "dining" ∧
    categorize_expense (some "shopping") "I spent $12 on sushi" =
      categorize_expense none "I spent $12 on sushi" := by
  exact c6_classifier_rule_stage.1 "I spent $12 on sushi" (some "shopping") none
    "dining" (by decide) (by decide)

/-! ## Query-scope theorems -/

/-- C10: `determine_query_scope` is total and month-name-dominant: the budget
and calorie implementations agree on every message; whenever some English
month name occurs as a plain substring of the lower-cased message the result
is `(specific_month, MM)` (the check is not word-bounded — `"maybe"` resolves
to May); and a message containing no month name and no period keyword
resolves to the default `(daily, none)`. -/
theorem c10_query_scope :
    (∀ msg : String, budget_determine_query_scope msg = calorie_determine_query_scope msg) ∧
    (∀ (msg : String) (p : String × String),
      monthTable.find? (fun q => strHas (lowerStr msg) q.1) = some p →
      budget_determine_query_scope msg = ("specific_month", some p.2)) ∧
    (∀ msg : String,
      (∃ q ∈ monthTable, strHas (lowerStr msg) q.1 = true) →
      (budget_determine_query_scope msg).1 = "specific_month") ∧
    (budget_determine_query_scope "maybe" = ("specific_month", some "05")) ∧
    (∀ msg : String,
      (∀ q ∈ monthTable, strHas (lowerStr msg) q.1 = false) →
      (∀ w ∈ (["today", "now", "current", "week", "weekly", "7 days", "year",
               "yearly", "this year", "month", "monthly"] : List String),
        strHas (lowerStr msg) w = false) →
      budget_determine_query_scope msg = ("daily", none)) := by
  have hfound : ∀ (msg : String) (p : String × String),
      monthTable.find? (fun q => strHas (lowerStr msg) q.1) = some p →
      budget_determine_query_scope msg = ("specific_month", some p.2) := by
    intro msg p hfind
    unfold budget_determine_query_scope
    dsimp only
    rw [hfind]
  refine ⟨fun msg => rfl, hfound, ?_, by decide, ?_⟩
  · intro msg hex
    have hsome : (monthTable.find? (fun q => strHas (lowerStr msg) q.1)).isSome := by
      cases hf : monthTable.find? (fun q => strHas (lowerStr msg) q.1) with
      | some p => rfl
      | none =>
        rw [List.find?_eq_none] at hf
        obtain ⟨q, hq, hqt⟩ := hex
        exact absurd hqt (by simpa using hf q hq)
    obtain ⟨p, hp⟩ := Option.isSome_iff_exists.mp hsome
    rw [hfound msg p hp]
  · intro msg hmonths hwords
    have hf : monthTable.find? (fun q => strHas (lowerStr msg) q.1) = none := by
      rw [List.find?_eq_none]
      intro q hq
      simp [hmonths q hq]
    unfold budget_determine_query_scope
    dsimp only
    rw [hf]
    have h0 : strHas (lowerStr msg) "today" = false := hwords _ (by simp)
    have h1 : strHas (lowerStr msg) "now" = false := hwords _ (by simp)
    have h2 : strHas (lowerStr msg) "current" = false := hwords _ (by simp)
    have h3 : strHas (lowerStr msg) "week" = false := hwords _ (by simp)
    have h4 : strHas (lowerStr msg) "weekly" = false := hwords _ (by simp)
    have h5 : strHas (lowerStr msg) "7 days" = false := hwords _ (by simp)
    have h6 : strHas (lowerStr msg) "year" = false := hwords _ (by simp)
    have h7 : strHas (lowerStr msg) "yearly" = false := hwords _ (by simp)
    have h8 : strHas (lowerStr msg) "this year" = false := hwords _ (by simp)
    have h9 : strHas (lowerStr msg) "month" = false := hwords _ (by simp)
    have h10 : strHas (lowerStr msg) "monthly" = false := hwords _ (by simp)
    simp [h0, h1, h2, h3, h4, h5, h6, h7, h8, h9, h10]

/-- C10 witness: `"maybe"` resolves to May by substring match; a message with
no month name and no period keyword takes the daily default. -/
theorem c10_query_scope_witness :
    budget_determine_query_scope "maybe" = ("specific_month", some "05") ∧
    budget_determine_query_scope "hello" = ("daily", none) := by
  refine ⟨c10_query_scope.2.2.2.1, ?_⟩
  exact c10_query_scope.2.2.2.2 "hello" (by decide) (by decide)

/-! ## Budget-analyzer theorems -/

/-- C8: the ideal allocation is the 50/30/20 split of income; the
deterministic rule tier always runs (its output is a suffix of the final
recommendation list for every enrichment outcome, including enrichment
failure); and for positive income it emits the wants `reduce_spending`
recommendation exactly when the actual wants percentage exceeds the ideal 30%
by more than 5 points (with `potential_savings` = actual − ideal wants), and
the savings `increase_savings` recommendation exactly when the actual savings
percentage is more than 5 points below the ideal 20%. -/
theorem c8_budget_analyzer_rules :
    (∀ salary : ℚ, ideal_allocations salary =
      ⟨salary * (1 / 2), salary * (3 / 10), salary * (1 / 5)⟩) ∧
    (∀ (salary : ℚ) (actual : Alloc) (ai : Option (List Recommendation)),
      (analyze_budget salary actual ai).ideal = ideal_allocations salary ∧
      (analyze_budget salary actual ai).recommendations =
        ai.getD [] ++ basic_recommendations (ideal_allocations salary) actual salary) ∧
    (∀ (salary : ℚ) (actual : Alloc), 0 < salary →
      basic_recommendations (ideal_allocations salary) actual salary =
        (if actual.wants / salary * 100 - 30 > 5 then
          [⟨"wants", "reduce_spending", "Consider reducing discretionary spending.",
            actual.wants - salary * (30 / 100)⟩]
         else []) ++
        (if actual.savings / salary * 100 - 20 < -5 then
          [⟨"savings", "increase_savings", "Try to increase your monthly savings.",
            salary * (20 / 100) - actual.savings⟩]
         else [])) := by
  refine ⟨?_, ?_, ?_⟩
  · intro salary
    unfold ideal_allocations
    norm_num
  · intro salary actual ai
    cases ai <;> exact ⟨rfl, rfl⟩
  · intro salary actual hs
    have hne : salary ≠ 0 := ne_of_gt hs
    have h30 : salary * (30 / 100) / salary * 100 = 30 := by
      field_simp
      ring
    have h20 : salary * (20 / 100) / salary * 100 = 20 := by
      field_simp
      ring
    unfold basic_recommendations ideal_allocations pctOf
    dsimp only
    simp only [hne, not_false_iff, if_true, ne_eq]
    rw [h30, h20]

/-- C8 witness: income $3000 with actual wants $1200 (40%) emits the
`reduce_spending` recommendation with potential savings $300; the all-zero
savings also trip the shortfall rule. -/
theorem c8_budget_analyzer_rules_witness :
    basic_recommendations (ideal_allocations 3000) ⟨0, 1200, 0⟩ 3000 =
      [⟨"wants", "reduce_spending", "Consider reducing discretionary spending.", 300⟩,
       ⟨"savings", "increase_savings", "Try to increase your monthly savings.", 600⟩] := by
  rw [c8_budget_analyzer_rules.2.2 3000 ⟨0, 1200, 0⟩ (by norm_num)]
  norm_num

/-! ## Duplicate-guard theorem (calories.py direct-entry path) -/

/-- C1: the duplicate check of `add_calorie_entry` reports "already exists"
for the first recent entry whose timestamp parses, without testing the
`similar_food`/`similar_calories` condition it computes (the guard announced
by the source comments is missing): a candidate (`apple`, 500 cal) with a
recent (`banana`, 105 cal) entry fails both similarity tests yet is reported
as a duplicate and not persisted.  The claim's positive example (logging
`banana, 105 cal` twice keeps one entry) does hold, and an empty recent list
reaches the save path. -/
theorem c1_duplicate_guard_code_bug :
    add_calorie_entry ⟨"apple", 500, "serving"⟩ [⟨"banana", some 105, true⟩] =
      .duplicate "Entry for apple already exists" ∧
    specDuplicate ⟨"apple", 500, "serving"⟩ [⟨"banana", some 105, true⟩] = false ∧
    similar_food ⟨"apple", 500, "serving"⟩ ⟨"banana", some 105, true⟩ = false ∧
    add_calorie_entry ⟨"banana", 105, "serving"⟩ [⟨"banana", some 105, true⟩] =
      .duplicate "Entry for banana already exists" ∧
    add_calorie_entry ⟨"banana", 105, "serving"⟩ [] = .saved "banana" 105 := by
  refine ⟨rfl, by decide, by decide, rfl, rfl⟩

/-! ## Conversation-history theorems (chat endpoint) -/

/-- C2 counterexample: when the assistant-message history write fails, the
chat endpoint surfaces the failure (HTTP 500) instead of returning the
computed response — the write is not best-effort. -/
theorem c2_history_write_counterexample :
    chat_endpoint (.ok 1) ⟨"Here is your summary.", true⟩ (.error "connection closed") =
      .error "connection closed" ∧
    chat_endpoint (.error "connection closed") ⟨"Here is your summary.", true⟩ (.ok 2) =
      .error "connection closed" ∧
    chat_endpoint (.ok 1) ⟨"Here is your summary.", true⟩ (.error "connection closed") ≠
      .ok (⟨"Here is your summary.", true⟩, 1, 2) := by
  refine ⟨rfl, rfl, fun h => nomatch h⟩

/-- C2 amended: both history writes sit on the critical path of the chat
endpoint: the response is returned only when both saves succeed, and a
failure of either save propagates as the endpoint error (the user-message
save even precedes processing). -/
theorem c2_history_write_amended :
    (∀ (pr : ChatResp) (u a : Nat),
      chat_endpoint (.ok u) pr (.ok a) = .ok (pr, u, a)) ∧
    (∀ (pr : ChatResp) (u : Nat) (e : String),
      chat_endpoint (.ok u) pr (.error e) = .error e) ∧
    (∀ (pr : ChatResp) (e : String) (sa : Except String Nat),
      chat_endpoint (.error e) pr sa = .error e) :=
  ⟨fun _ _ _ => rfl, fun _ _ _ => rfl, fun _ _ _ => rfl⟩

/-! ## Ledger-update theorems -/

/-- C3 counterexample: an empty patch on an existing, owned entry does not
return true — the generated `UPDATE meals SET  WHERE ...` statement has no
assignments and the store error propagates. -/
theorem c3_empty_patch_counterexample :
    update_calorie_entry [⟨1, "u", "banana", 105, none, none, none, 1, "serving"⟩]
        "u" 1 emptyPatch =
      .error "PostgresSyntaxError: syntax error at or near WHERE" ∧
    update_calorie_entry [⟨1, "u", "banana", 105, none, none, none, 1, "serving"⟩]
        "u" 1 emptyPatch ≠
      .ok (true, [⟨1, "u", "banana", 105, none, none, none, 1, "serving"⟩]) := by
  refine ⟨rfl, fun h => nomatch h⟩

/-- C3 amended: an id that does not belong to the caller returns false (not
an error); a NON-empty patch on an owned entry succeeds and overwrites
exactly the supplied fields; and an empty patch on an owned entry raises a
store error instead of returning true. -/
theorem c3_update_amended :
    (∀ (table : List MealRow) (uid : String) (eid : Nat) (p : FoodPatch),
      table.any (fun r => r.id == eid && r.user_id == uid) = false →
      update_calorie_entry table uid eid p = .ok (false, table)) ∧
    (∀ (table : List MealRow) (uid : String) (eid : Nat) (p : FoodPatch),
      table.any (fun r => r.id == eid && r.user_id == uid) = true →
      patchFieldCount p ≠ 0 →
      update_calorie_entry table uid eid p =
        .ok (true, table.map (fun r =>
          if r.id == eid && r.user_id == uid then applyPatch p r else r))) ∧
    (∀ (table : List MealRow) (uid : String) (eid : Nat),
      table.any (fun r => r.id == eid && r.user_id == uid) = true →
      ∃ msg, update_calorie_entry table uid eid emptyPatch = .error msg) ∧
    (∀ (p : FoodPatch) (r : MealRow),
      (applyPatch p r).id = r.id ∧ (applyPatch p r).user_id = r.user_id ∧
      (p.food_item = none → (applyPatch p r).food_item = r.food_item) ∧
      (p.calories = none → (applyPatch p r).calories = r.calories) ∧
      (p.carbs = none → (applyPatch p r).carbs = r.carbs) ∧
      (p.protein = none → (applyPatch p r).protein = r.protein) ∧
      (p.fat = none → (applyPatch p r).fat = r.fat) ∧
      (p.quantity = none → (applyPatch p r).quantity = r.quantity) ∧
      (p.unit = none → (applyPatch p r).unit = r.unit)) := by
  refine ⟨?_, ?_, ?_, ?_⟩
  · intro table uid eid p h
    unfold update_calorie_entry
    rw [h]
    rfl
  · intro table uid eid p h hp
    unfold update_calorie_entry
    rw [h, if_pos rfl, if_neg hp]
  · intro table uid eid h
    refine ⟨"PostgresSyntaxError: syntax error at or near WHERE", ?_⟩
    unfold update_calorie_entry
    rw [h, if_pos rfl]
    rfl
  · intro p r
    refine ⟨rfl, rfl, ?_, ?_, ?_, ?_, ?_, ?_, ?_⟩ <;>
      (intro h; simp [applyPatch, h])

/-- C3 amended witness: a concrete non-empty patch updates only the supplied
calorie field; a foreign id returns false; an empty patch errors. -/
theorem c3_update_amended_witness :
    update_calorie_entry [⟨1, "u", "banana", 105, none, none, none, 1, "serving"⟩]
        "u" 1 ⟨none, some 110, none, none, none, none, none⟩ =
      .ok (true, [⟨1, "u", "banana", 110, none, none, none, 1, "serving"⟩]) ∧
    update_calorie_entry [⟨1, "u", "banana", 105, none, none, none, 1, "serving"⟩]
        "v" 1 emptyPatch =
      .ok (false, [⟨1, "u", "banana", 105, none, none, none, 1, "serving"⟩]) ∧
    (∃ msg, update_calorie_entry
        [⟨1, "u", "banana", 105, none, none, none, 1, "serving"⟩] "u" 1 emptyPatch =
      .error msg) := by
  refine ⟨?_, ?_, ?_⟩
  · rw [c3_update_amended.2.1 _ "u" 1 _ (by decide) (by decide)]
    rfl
  · exact c3_update_amended.1 _ "v" 1 emptyPatch (by decide)
  · exact c3_update_amended.2.2.1 _ "u" 1 (by decide)

/-! ## Completion-failure default theorems -/

/-- C9: completion-service failures never escape: (1) when no rule pattern
matches and the model fallback raises, classification returns `other`; when
the fallback returns a label, classification post-processes it with
`aiCategorize`, which returns `other` for any label outside the closed set
on which every substring heuristic fails; (2) the best-guess intent call
defaults to `{conversation, chat}` on call failure or parse failure; (3) the
multi-intent extraction defaults to the empty array on call or parse
failure. -/
theorem c9_completion_failure_defaults :
    (∀ desc : String, desc ≠ "" →
      priorityOrder.find?
        (fun c => groupMatch (categoryKeywords c) (lowerList desc.toList)) = none →
      categorize_expense none desc = "other") ∧
    (∀ (desc raw : String), desc ≠ "" →
      priorityOrder.find?
        (fun c => groupMatch (categoryKeywords c) (lowerList desc.toList)) = none →
      categorize_expense (some raw) desc = aiCategorize raw) ∧
    (∀ raw : String,
      (⟨lowerList (trimWs raw.toList)⟩ : String) ∉ validCategories →
      (∀ w ∈ (["food", "restaurant", "eat", "bar", "market", "grocer", "travel",
               "car", "gas", "movie", "game", "fun", "cloth", "buy", "purchase",
               "home", "rent", "bill", "invest", "stock", "save"] : List String),
        strHas ⟨lowerList (trimWs raw.toList)⟩ w = false) →
      aiCategorize raw = "other") ∧
    (∀ parse : String → Option Intent,
      determine_intent (.error ()) parse = ⟨"conversation", "chat"⟩) ∧
    (∀ (s : String) (parse : String → Option Intent), parse s = none →
      determine_intent (.ok s) parse = ⟨"conversation", "chat"⟩) ∧
    (∀ parse : String → Option (List Intent),
      extract_multiple_intents (.error ()) parse = []) ∧
    (∀ (s : String) (parse : String → Option (List Intent)), parse s = none →
      extract_multiple_intents (.ok s) parse = []) := by
  refine ⟨?_, ?_, ?_, fun _ => rfl, ?_, fun _ => rfl, ?_⟩
  · intro desc hne hfind
    unfold categorize_expense
    rw [if_neg hne]
    dsimp only
    rw [hfind]
  · intro desc raw hne hfind
    unfold categorize_expense
    rw [if_neg hne]
    dsimp only
    rw [hfind]
  · intro raw hval hw
    unfold aiCategorize aiHeuristic
    dsimp only
    rw [if_neg hval]
    have ha0 : strHas ⟨lowerList (trimWs raw.data)⟩ "food" = false := hw _ (by simp)
    have ha1 : strHas ⟨lowerList (trimWs raw.data)⟩ "restaurant" = false := hw _ (by simp)
    have ha2 : strHas ⟨lowerList (trimWs raw.data)⟩ "eat" = false := hw _ (by simp)
    have ha3 : strHas ⟨lowerList (trimWs raw.data)⟩ "bar" = false := hw _ (by simp)
    have ha4 : strHas ⟨lowerList (trimWs raw.data)⟩ "market" = false := hw _ (by simp)
    have ha5 : strHas ⟨lowerList (trimWs raw.data)⟩ "grocer" = false := hw _ (by simp)
    have ha6 : strHas ⟨lowerList (trimWs raw.data)⟩ "travel" = false := hw _ (by simp)
    have ha7 : strHas ⟨lowerList (trimWs raw.data)⟩ "car" = false := hw _ (by simp)
    have ha8 : strHas ⟨lowerList (trimWs raw.data)⟩ "gas" = false := hw _ (by simp)
    have ha9 : strHas ⟨lowerList (trimWs raw.data)⟩ "movie" = false := hw _ (by simp)
    have ha10 : strHas ⟨lowerList (trimWs raw.data)⟩ "game" = false := hw _ (by simp)
    have ha11 : strHas ⟨lowerList (trimWs raw.data)⟩ "fun" = false := hw _ (by simp)
    have ha12 : strHas ⟨lowerList (trimWs raw.data)⟩ "cloth" = false := hw _ (by simp)
    have ha13 : strHas ⟨lowerList (trimWs raw.data)⟩ "buy" = false := hw _ (by simp)
    have ha14 : strHas ⟨lowerList (trimWs raw.data)⟩ "purchase" = false := hw _ (by simp)
    have ha15 : strHas ⟨lowerList (trimWs raw.data)⟩ "home" = false := hw _ (by simp)
    have ha16 : strHas ⟨lowerList (trimWs raw.data)⟩ "rent" = false := hw _ (by simp)
    have ha17 : strHas ⟨lowerList (trimWs raw.data)⟩ "bill" = false := hw _ (by simp)
    have ha18 : strHas ⟨lowerList (trimWs raw.data)⟩ "invest" = false := hw _ (by simp)
    have ha19 : strHas ⟨lowerList (trimWs raw.data)⟩ "stock" = false := hw _ (by simp)
    have ha20 : strHas ⟨lowerList (trimWs raw.data)⟩ "save" = false := hw _ (by simp)
    simp [ha0, ha1, ha2, ha3, ha4, ha5, ha6, ha7, ha8, ha9, ha10, ha11, ha12, ha13, ha14, ha15, ha16, ha17, ha18, ha19, ha20]
  · intro s parse hp
    unfold determine_intent
    dsimp only
    rw [hp]
  · intro s parse hp
    unfold extract_multiple_intents
    dsimp only
    rw [hp]
    rfl

/-- C9 witness: concrete failures at each operation take the documented
defaults. -/
theorem c9_completion_failure_defaults_witness :
    categorize_expense none "zzz qqq" = "other" ∧
    categorize_expense (some "zzz category") "zzz qqq" = aiCategorize "zzz category" ∧
    aiCategorize "weird label" = "other" ∧
    determine_intent (.error ()) (fun _ => some ⟨"budget", "log"⟩) =
      ⟨"conversation", "chat"⟩ ∧
    determine_intent (.ok "not json") (fun _ => none) = ⟨"conversation", "chat"⟩ ∧
    extract_multiple_intents (.error ()) (fun _ => some [⟨"budget", "log"⟩]) = [] ∧
    extract_multiple_intents (.ok "not json") (fun _ => none) = [] := by
  refine ⟨?_, ?_, ?_, ?_, ?_, ?_, ?_⟩
  · exact c9_completion_failure_defaults.1 "zzz qqq" (by decide) (by decide)
  · exact c9_completion_failure_defaults.2.1 "zzz qqq" "zzz category" (by decide) (by decide)
  · exact c9_completion_failure_defaults.2.2.1 "weird label" (by decide) (by decide)
  · exact c9_completion_failure_defaults.2.2.2.1 _
  · exact c9_completion_failure_defaults.2.2.2.2.1 "not json" _ rfl
  · exact c9_completion_failure_defaults.2.2.2.2.2.1 _
  · exact c9_completion_failure_defaults.2.2.2.2.2.2 "not json" _ rfl

/-! ## Multi-intent merge theorems -/

theorem occFilter_cons (seen : List String) (t : String) (ts : List String) :
    occFilter seen (t :: ts) =
      if t ∈ knownTools ∧ t ∉ seen then t :: occFilter (seen ++ [t]) ts
      else occFilter seen ts := rfl

theorem mem_occFilter (t : String) (ht : t ∈ knownTools) (l : List String) :
    ∀ seen, t ∈ occFilter seen l ↔ t ∈ l ∧ t ∉ seen := by
  induction l with
  | nil =>
    intro seen
    simp [occFilter]
  | cons u us ih =>
    intro seen
    rw [occFilter_cons]
    by_cases hc : u ∈ knownTools ∧ u ∉ seen
    · rw [if_pos hc]
      by_cases htu : t = u
      · subst htu
        simp [hc.2]
      · simp only [List.mem_cons, htu, false_or]
        rw [ih (seen ++ [u])]
        simp [htu]
    · rw [if_neg hc]
      rw [ih seen]
      by_cases htu : t = u
      · subst htu
        have hseen : t ∈ seen := by
          rcases not_and_or.mp hc with h | h
          · exact absurd ht h
          · exact not_not.mp h
        simp [hseen]
      · simp [List.mem_cons, htu]

theorem multiFold_char {E C R : Type} (cal : Option C × String)
    (bud : Option E × String) (rest : Option R × String) (l : List String) :
    ∀ st : MultiState E C R,
      l.foldl (multiStep cal bud rest) st =
        ⟨st.processed ++ occFilter st.processed l,
         st.frags ++ (occFilter st.processed l).map (fragOf cal bud rest),
         if "budget" ∈ occFilter st.processed l then bud.1 else st.e,
         if "calories" ∈ occFilter st.processed l then cal.1 else st.c,
         if "restaurant" ∈ occFilter st.processed l then rest.1 else st.r⟩ := by
  have d1 : ("budget" : String) ≠ "calories" := by decide
  have d2 : ("budget" : String) ≠ "restaurant" := by decide
  have d3 : ("calories" : String) ≠ "budget" := by decide
  have d4 : ("calories" : String) ≠ "restaurant" := by decide
  have d5 : ("restaurant" : String) ≠ "budget" := by decide
  have d6 : ("restaurant" : String) ≠ "calories" := by decide
  induction l with
  | nil =>
    intro st
    simp [occFilter]
  | cons t ts ih =>
    intro st
    rw [List.foldl_cons]
    by_cases hp : t ∈ st.processed
    · have hstep : multiStep cal bud rest st t = st := by
        unfold multiStep
        rw [if_pos hp]
      have hocc : occFilter st.processed (t :: ts) = occFilter st.processed ts := by
        rw [occFilter_cons]
        exact if_neg (fun hcond => hcond.2 hp)
      rw [hstep, ih st, hocc]
    · by_cases hcal : t = "calories"
      · subst hcal
        have hstep : multiStep cal bud rest st "calories" =
            { st with c := cal.1, frags := st.frags ++ [cal.2],
                      processed := st.processed ++ ["calories"] } := by
          unfold multiStep
          rw [if_neg hp, if_pos rfl]
        have hocc : occFilter st.processed ("calories" :: ts) =
            "calories" :: occFilter (st.processed ++ ["calories"]) ts := by
          rw [occFilter_cons]
          exact if_pos ⟨by simp [knownTools], hp⟩
        rw [hstep, ih _, hocc]
        dsimp only
        simp [fragOf, List.mem_cons, d1, d4]
      · by_cases hbud : t = "budget"
        · subst hbud
          have hstep : multiStep cal bud rest st "budget" =
              { st with e := bud.1, frags := st.frags ++ [bud.2],
                        processed := st.processed ++ ["budget"] } := by
            unfold multiStep
            rw [if_neg hp, if_neg d1, if_pos rfl]
          have hocc : occFilter st.processed ("budget" :: ts) =
              "budget" :: occFilter (st.processed ++ ["budget"]) ts := by
            rw [occFilter_cons]
            exact if_pos ⟨by simp [knownTools], hp⟩
          rw [hstep, ih _, hocc]
          dsimp only
          simp [fragOf, List.mem_cons, d3, d6]
        · by_cases hrest : t = "restaurant"
          · subst hrest
            have hstep : multiStep cal bud rest st "restaurant" =
                { st with r := rest.1, frags := st.frags ++ [rest.2],
                          processed := st.processed ++ ["restaurant"] } := by
              unfold multiStep
              rw [if_neg hp, if_neg d6, if_neg d5, if_pos rfl]
            have hocc : occFilter st.processed ("restaurant" :: ts) =
                "restaurant" :: occFilter (st.processed ++ ["restaurant"]) ts := by
              rw [occFilter_cons]
              exact if_pos ⟨by simp [knownTools], hp⟩
            rw [hstep, ih _, hocc]
            dsimp only
            simp [fragOf, List.mem_cons, d2, d4]
          · have hstep : multiStep cal bud rest st t = st := by
              unfold multiStep
              rw [if_neg hp, if_neg hcal, if_neg hbud, if_neg hrest]
            have hnk : ¬(t ∈ knownTools ∧ t ∉ st.processed) := by
              intro hck
              have hk := hck.1
              simp only [knownTools, List.mem_cons, List.not_mem_nil, or_false] at hk
              rcases hk with h | h | h
              · exact hcal h
              · exact hbud h
              · exact hrest h
            have hocc : occFilter st.processed (t :: ts) = occFilter st.processed ts := by
              rw [occFilter_cons]
              exact if_neg hnk
            rw [hstep, ih st, hocc]

/-- C7: whenever the extracted multi-intent array is non-empty, the router
dispatches one handler per unique known tool value in first-occurrence order
(later duplicates are skipped), joins the collected fragments with the
separator into one combined response, and stores the structured payloads in
the distinct sub-fields `expense_info`, `calorie_info` and
`restaurant_suggestions` without any overwriting; in particular a message
carrying both a budget and a calories intent yields one response with both
payload sub-fields set from their respective handlers. -/
theorem c7_multi_intent_merge :
    (∀ {E C R : Type} (multi : List String) (single : MergedResp E C R)
        (cal : Option C × String) (bud : Option E × String) (rest : Option R × String),
      multi ≠ [] →
      process_chat_message multi single cal bud rest =
        { response :=
            if ((occFilter [] multi).map (fragOf cal bud rest)).isEmpty then
              "I\x27ll help you with that."
            else String.intercalate " \n\n" ((occFilter [] multi).map (fragOf cal bud rest)),
          expense_info := if "budget" ∈ occFilter [] multi then bud.1 else none,
          calorie_info := if "calories" ∈ occFilter [] multi then cal.1 else none,
          restaurant_suggestions :=
            if "restaurant" ∈ occFilter [] multi then rest.1 else none }) ∧
    (∀ {E C R : Type} (multi : List String) (single : MergedResp E C R)
        (cal : Option C × String) (bud : Option E × String) (rest : Option R × String),
      "budget" ∈ multi → "calories" ∈ multi →
      (process_chat_message multi single cal bud rest).expense_info = bud.1 ∧
      (process_chat_message multi single cal bud rest).calorie_info = cal.1) := by
  have hchar : ∀ {E C R : Type} (multi : List String) (single : MergedResp E C R)
      (cal : Option C × String) (bud : Option E × String) (rest : Option R × String),
      multi ≠ [] →
      process_chat_message multi single cal bud rest =
        { response :=
            if ((occFilter [] multi).map (fragOf cal bud rest)).isEmpty then
              "I\x27ll help you with that."
            else String.intercalate " \n\n" ((occFilter [] multi).map (fragOf cal bud rest)),
          expense_info := if "budget" ∈ occFilter [] multi then bud.1 else none,
          calorie_info := if "calories" ∈ occFilter [] multi then cal.1 else none,
          restaurant_suggestions :=
            if "restaurant" ∈ occFilter [] multi then rest.1 else none } := by
    intro E C R multi single cal bud rest hne
    unfold process_chat_message
    rw [if_neg (by simpa [List.isEmpty_iff] using hne)]
    unfold process_multi
    rw [multiFold_char cal bud rest multi ⟨[], [], none, none, none⟩]
    dsimp only
    rw [List.nil_append]
  refine ⟨hchar, ?_⟩
  intro E C R multi single cal bud rest hb hc
  have hne : multi ≠ [] := by
    intro habs
    rw [habs] at hb
    exact List.not_mem_nil _ hb
  rw [hchar multi single cal bud rest hne]
  have hbmem : "budget" ∈ occFilter [] multi := by
    rw [mem_occFilter "budget" (by simp [knownTools]) multi []]
    exact ⟨hb, List.not_mem_nil _⟩
  have hcmem : "calories" ∈ occFilter [] multi := by
    rw [mem_occFilter "calories" (by simp [knownTools]) multi []]
    exact ⟨hc, List.not_mem_nil _⟩
  exact ⟨by simp [hbmem], by simp [hcmem]⟩

/-- C7 witness: the two-intent message (budget then calories) produces one
combined response with both payloads present and the fragments joined by the
separator. -/
theorem c7_multi_intent_merge_witness :
    process_chat_message ["budget", "calories"]
        (⟨"single-intent path", none, none, none⟩ : MergedResp String String String)
        (some "calorie payload", "calorie fragment")
        (some "expense payload", "budget fragment")
        (none, "restaurant fragment") =
      ⟨"budget fragment \n\ncalorie fragment",
       some "expense payload", some "calorie payload", none⟩ ∧
    (process_chat_message ["budget", "calories"]
        (⟨"single-intent path", none, none, none⟩ : MergedResp String String String)
        (some "calorie payload", "calorie fragment")
        (some "expense payload", "budget fragment")
        ((none : Option String), "restaurant fragment")).expense_info =
      some "expense payload" := by
  constructor
  · rw [c7_multi_intent_merge.1 ["budget", "calories"] _ _ _ _ (by decide)]
    rfl
  · exact (c7_multi_intent_merge.2 ["budget", "calories"] _ _ _ _
      (by decide) (by decide)).1

end Plexi
